import Mathlib

/-!
Verification of the client state-machine and API-gateway layer of the
task/group mini-application (src/main.tsx) against its design document.
The embedding translates the source functions directly: pure request and
response handling becomes pure functions, the fetch Response body stream
becomes explicit state passing, and the navigation handlers become
functions on an explicit navigation-state record.
-/

namespace TaskApp

/-- JavaScript truthiness for optional strings, as used by the source on
values read from form data and URL query parameters: an absent value
(undefined or null, modelled as none) and the empty string are falsy, every
other string is truthy. -/
def jsTruthyStr : Option String → Bool
  | none => false
  | some s => s != ""

/-- Atomic JSON values. Every body on this wire contract is a flat JSON
object of atoms (an error body has a message string; a creation response has
a success flag and an id), so the model restricts nesting to one level: an
object whose fields are atoms. -/
inductive JsAtom
  | jnull
  | jbool (b : Bool)
  | jnum (n : Int)
  | jstr (s : String)
deriving DecidableEq

/-- A JSON value: an atom or a one-level object of atoms. -/
inductive Js
  | atom (a : JsAtom)
  | obj (fields : List (String × JsAtom))
deriving DecidableEq

/-- JSON.stringify on an atom. -/
def JsAtom.stringify : JsAtom → String
  | .jnull => "null"
  | .jbool true => "true"
  | .jbool false => "false"
  | .jnum n => toString n
  | .jstr s => "\"" ++ s ++ "\""

/-- JSON.stringify on a value (platform serialization, used by the source in
the fallback branch of the error-message construction). -/
def Js.stringify : Js → String
  | .atom a => a.stringify
  | .obj fields =>
      "\x7b" ++
        String.intercalate (",")
          (fields.map (fun kv => "\"" ++ kv.1 ++ "\":" ++ kv.2.stringify)) ++
      "\x7d"

/-- How an atom renders inside a JavaScript template literal. -/
def JsAtom.display : JsAtom → String
  | .jnull => "null"
  | .jbool true => "true"
  | .jbool false => "false"
  | .jnum n => toString n
  | .jstr s => s

/-- JavaScript truthiness of an atom. -/
def JsAtom.truthy : JsAtom → Bool
  | .jnull => false
  | .jbool b => b
  | .jnum n => n != 0
  | .jstr s => s != ""

/-- The expression errorData.message with the or-else fallback to
JSON.stringify(errorData), from the try block of apiFetch: reading the
message property of a non-object or of an object without that field yields
undefined (falsy), and a falsy message falls back to the serialized value. -/
def messageOrStringify (errorData : Js) : String :=
  match errorData with
  | .obj fields =>
      match (fields.filter (fun kv => kv.1 == "message")).getLast? with
      | some kv => if kv.2.truthy then kv.2.display else errorData.stringify
      | none => errorData.stringify
  | .atom _ => errorData.stringify

/-- The platform fetch Response as apiFetch observes it. The field jsonBody
models what the platform JSON.parse of the body text returns: some parsed
value when the body is valid JSON, none when parsing fails. -/
structure HttpResponse where
  status : Nat
  statusText : String
  contentType : Option String
  body : String
  jsonBody : Option Js
deriving DecidableEq

/-- response.ok of the fetch API: the status is in the 2xx range. -/
def HttpResponse.ok (r : HttpResponse) : Bool :=
  decide (200 ≤ r.status ∧ r.status < 300)

/-- A Response together with its one-shot body-stream flag: per the fetch
specification, the first call to json() or text() consumes the body (even
when JSON parsing fails), and any further read rejects with a TypeError. -/
structure BodyStream where
  resp : HttpResponse
  bodyUsed : Bool
deriving DecidableEq

/-- JavaScript exceptions distinguished by the source's error path: an Error
constructed by apiFetch itself, a platform TypeError (reading an
already-consumed body), and a JSON SyntaxError. -/
inductive JsErr
  | error (msg : String)
  | typeError (msg : String)
  | syntaxError (msg : String)
deriving DecidableEq

/-- The message property of a JavaScript exception. -/
def JsErr.message : JsErr → String
  | .error m => m
  | .typeError m => m
  | .syntaxError m => m

/-- Message of the TypeError raised on a second read of a response body. -/
def bodyUsedMsg : String := "body stream already read"

/-- response.json(): rejects with a TypeError if the body was already
consumed; otherwise consumes the body and returns the parsed value, or
rejects with a SyntaxError (the body is consumed either way). -/
def BodyStream.json (r : BodyStream) : Except JsErr Js × BodyStream :=
  if r.bodyUsed then (Except.error (JsErr.typeError bodyUsedMsg), r)
  else
    match r.resp.jsonBody with
    | some j => (Except.ok j, { r with bodyUsed := true })
    | none =>
        (Except.error (JsErr.syntaxError ("Unexpected token")),
         { r with bodyUsed := true })

/-- response.text(): rejects with a TypeError if the body was already
consumed; otherwise consumes the body and returns the raw text. -/
def BodyStream.text (r : BodyStream) : Except JsErr String × BodyStream :=
  if r.bodyUsed then (Except.error (JsErr.typeError bodyUsedMsg), r)
  else (Except.ok r.resp.body, { r with bodyUsed := true })

/-- The response-decoding part of apiFetch (src/main.tsx lines 119-138).
Request construction (URL, authorization header) carries no decodable state
and is elided; the function is modelled from the awaited response on.
On a non-ok response the source runs, inside one try block, response.json()
followed by a throw of the normalized Error; any exception raised in that
block - the deliberate throw included - lands in the catch block, which
reads response.text() and throws the text-based normalized Error. On an ok
response, a missing or non-JSON content type yields null, otherwise the
parsed JSON body is returned. -/
def apiFetch (response : HttpResponse) : Except JsErr (Option Js) :=
  let r0 : BodyStream := { resp := response, bodyUsed := false }
  if response.ok then
    match response.contentType with
    | none => Except.ok none
    | some ct =>
        if decide (List.IsInfix ("application/json".toList) ct.toList) then
          match (r0.json).1 with
          | Except.ok j => Except.ok (some j)
          | Except.error e => Except.error e
        else Except.ok none
  else
    let jsonStep := r0.json
    let _thrownInTry : JsErr :=
      match jsonStep.1 with
      | Except.ok errorData =>
          JsErr.error ("API Error (" ++ toString response.status ++ "): " ++
            messageOrStringify errorData)
      | Except.error e => e
    let textStep := (jsonStep.2).text
    match textStep.1 with
    | Except.ok errorText =>
        Except.error (JsErr.error ("API Error (" ++ toString response.status ++ "): " ++
          (if errorText == "" then response.statusText else errorText)))
    | Except.error e => Except.error e

/-- A 404 response whose body is the JSON object with message "not found";
jsonBody is its platform parse. -/
def resp404 : HttpResponse :=
  { status := 404
    statusText := "Not Found"
    contentType := some ("application/json")
    body := "\x7b\"message\":\"not found\"\x7d"
    jsonBody := some (Js.obj [("message", JsAtom.jstr ("not found"))]) }

/-- A 500 response with the non-JSON body Internal Server Error; jsonBody is
none because the body is not valid JSON. -/
def resp500 : HttpResponse :=
  { status := 500
    statusText := "Internal Server Error"
    contentType := some ("text/plain")
    body := "Internal Server Error"
    jsonBody := none }

/-- Claim C1 (code bug). On every non-ok response, response.json() consumes
the one-shot body, and the normalized Error thrown inside the try block is
caught by that same try's catch, whose response.text() then rejects with a
TypeError because the body is already consumed. So the surfaced error is the
TypeError, never the normalized string: the 404 JSON example does not yield
"API Error (404): not found" and the 500 plain-text example does not yield
"API Error (500): Internal Server Error", contradicting both the claim and
the source's own comment describing the JSON-then-text fallback intent. -/
theorem apiFetch_nonOk_surfaces_typeError :
    apiFetch resp404 = Except.error (JsErr.typeError bodyUsedMsg)
    ∧ apiFetch resp500 = Except.error (JsErr.typeError bodyUsedMsg)
    ∧ apiFetch resp404 ≠ Except.error (JsErr.error ("API Error (404): not found"))
    ∧ apiFetch resp500 ≠
        Except.error (JsErr.error ("API Error (500): Internal Server Error")) := by
  refine ⟨rfl, rfl, ?_, ?_⟩
  · intro h
    have h0 : apiFetch resp404 = Except.error (JsErr.typeError bodyUsedMsg) := rfl
    rw [h0] at h
    injection h with h2
    exact JsErr.noConfusion h2
  · intro h
    have h0 : apiFetch resp500 = Except.error (JsErr.typeError bodyUsedMsg) := rfl
    rw [h0] at h
    injection h with h2
    exact JsErr.noConfusion h2

/-- The closed enumeration of screens (the Page union type of the source). -/
inductive Page
  | myTasks
  | taskDetails
  | myGroups
  | groupDetails
  | adminCreateTask
  | adminCreateGroup
  | adminAllGroups
deriving DecidableEq

/-- The navigation-relevant part of the App component state: the nominal
current screen and the two drill-down selections. -/
structure NavState where
  currentPage : Page
  selectedTaskId : Option String
  selectedGroupId : Option String
deriving DecidableEq

/-- handleNavigate (src/main.tsx lines 805-809): set the current page and
clear both drill-down selections. -/
def handleNavigate (page : Page) (s : NavState) : NavState :=
  { s with currentPage := page, selectedTaskId := none, selectedGroupId := none }

/-- handleSelectTask (src/main.tsx lines 849-852): record the selected task
id and move the nominal screen to task details. The other selection is not
touched. -/
def handleSelectTask (taskId : String) (s : NavState) : NavState :=
  { s with selectedTaskId := some taskId, currentPage := Page.taskDetails }

/-- handleSelectGroup (src/main.tsx lines 854-857): record the selected
group id and move the nominal screen to group details. The other selection
is not touched. -/
def handleSelectGroup (groupId : String) (s : NavState) : NavState :=
  { s with selectedGroupId := some groupId, currentPage := Page.groupDetails }

/-- handleBack (src/main.tsx lines 812-827). With a drill-down selection
active it navigates to the owning list screen (task selection wins when both
are set, mirroring the conditional expression of the source); with no
selection it navigates to the default tab only inside the guard testing the
presence of window.Telegram.WebApp, modelled by the bridgePresent flag, and
otherwise does nothing. -/
def handleBack (bridgePresent : Bool) (s : NavState) : NavState :=
  if s.selectedTaskId.isSome || s.selectedGroupId.isSome then
    handleNavigate (if s.selectedTaskId.isSome then Page.myTasks else Page.myGroups) s
  else if bridgePresent then handleNavigate Page.myTasks s
  else s

/-- The two user roles. -/
inductive UserRole
  | user
  | admin
deriving DecidableEq

/-- The authenticated identity returned by the backend. -/
structure User where
  id : String
  name : String
  role : UserRole
deriving DecidableEq

/-- The top-level App component state: navigation state, the loaded identity
(none until the identity fetch resolves), the resolved backend base address
(empty string until resolved) and the fatal session error. -/
structure AppState where
  nav : NavState
  user : Option User
  apiBaseUrl : String
  error : Option String
deriving DecidableEq

/-- What the top level renders; names the component chosen by renderPage. -/
inductive Rendered
  | errorScreen
  | loadingScreen
  | pageTaskDetails
  | pageGroupDetails
  | pageMyTasks
  | pageMyGroups
  | pageAdminCreateTask
  | pageAdminCreateGroup
  | pageAdminAllGroups
deriving DecidableEq

/-- renderPage (src/main.tsx lines 860-909), translated branch for branch:
fatal error first, then the identity-loading guard, then the task selection,
then the group selection, then the switch on the nominal page in which the
taskDetails and groupDetails cases fall through to the default, which
renders the my-tasks page. -/
def renderPage (s : AppState) : Rendered :=
  if s.error.isSome then Rendered.errorScreen
  else if s.user.isNone then Rendered.loadingScreen
  else if s.nav.selectedTaskId.isSome then Rendered.pageTaskDetails
  else if s.nav.selectedGroupId.isSome then Rendered.pageGroupDetails
  else
    match s.nav.currentPage with
    | Page.myTasks => Rendered.pageMyTasks
    | Page.myGroups => Rendered.pageMyGroups
    | Page.adminCreateTask => Rendered.pageAdminCreateTask
    | Page.adminCreateGroup => Rendered.pageAdminCreateGroup
    | Page.adminAllGroups => Rendered.pageAdminAllGroups
    | Page.taskDetails => Rendered.pageMyTasks
    | Page.groupDetails => Rendered.pageMyTasks

/-- Modelled from the spec wording of the screen-resolution precedence, for
comparison with renderPage: (1) a fatal session error renders the error
screen; (2) identity not yet loaded renders the loading screen; (3) an
active task selection renders task details; (4) an active group selection
renders group details; (5) otherwise dispatch on the nominal screen, with
detail-without-selection values falling back to the tasks list. -/
def specResolveScreen (s : AppState) : Rendered :=
  if s.error.isSome then Rendered.errorScreen
  else if s.user.isNone then Rendered.loadingScreen
  else if s.nav.selectedTaskId.isSome then Rendered.pageTaskDetails
  else if s.nav.selectedGroupId.isSome then Rendered.pageGroupDetails
  else
    match s.nav.currentPage with
    | Page.taskDetails => Rendered.pageMyTasks
    | Page.groupDetails => Rendered.pageMyTasks
    | Page.myTasks => Rendered.pageMyTasks
    | Page.myGroups => Rendered.pageMyGroups
    | Page.adminCreateTask => Rendered.pageAdminCreateTask
    | Page.adminCreateGroup => Rendered.pageAdminCreateGroup
    | Page.adminAllGroups => Rendered.pageAdminAllGroups

/-- Claim C5 (confirmed). The rendered screen is determined by exactly the
precedence stated in the design document: renderPage agrees with the
decision procedure transcribed from the spec wording on every state. -/
theorem renderPage_matches_spec_precedence (s : AppState) :
    renderPage s = specResolveScreen s := by
  rcases s with ⟨⟨page, t, g⟩, u, base, err⟩
  cases err <;> cases u <;> cases t <;> cases g <;> cases page <;> rfl

/-- Claim C7 (confirmed). handleNavigate sets the current screen to its
argument and unconditionally clears both drill-down selections, for every
prior state, including when navigating to the screen already current. -/
theorem handleNavigate_clears_selections (page : Page) (s : NavState) :
    (handleNavigate page s).currentPage = page
    ∧ (handleNavigate page s).selectedTaskId = none
    ∧ (handleNavigate page s).selectedGroupId = none :=
  ⟨rfl, rfl, rfl⟩

/-- Claim C6 (confirmed). handleBack with the host bridge present (the only
situation in which the source ever invokes it: it is registered exclusively
on the bridge back button inside a guard testing the bridge, src/main.tsx
lines 831-846): an active task selection leads to the tasks list, an active
group selection with no task selection leads to the groups list, and with no
selection at all it performs the navigation to the default tasks tab; in
every case both selections end up cleared because each branch goes through
handleNavigate. -/
theorem handleBack_behavior (s : NavState) :
    (s.selectedTaskId.isSome = true →
        handleBack true s = handleNavigate Page.myTasks s)
    ∧ (s.selectedTaskId = none → s.selectedGroupId.isSome = true →
        handleBack true s = handleNavigate Page.myGroups s)
    ∧ (s.selectedTaskId = none → s.selectedGroupId = none →
        handleBack true s = handleNavigate Page.myTasks s)
    ∧ (handleBack true s).selectedTaskId = none
    ∧ (handleBack true s).selectedGroupId = none := by
  rcases s with ⟨page, t, g⟩
  cases t <;> cases g <;> simp [handleBack, handleNavigate]

/-- Witness for claim C6: from a concrete task-details state, back lands on
the tasks list with both selections cleared, and from a concrete
no-selection state it lands on the tasks list as well. -/
theorem handleBack_behavior_witness :
    handleBack true
        { currentPage := Page.taskDetails
          selectedTaskId := some ("t1"), selectedGroupId := none }
      = { currentPage := Page.myTasks
          selectedTaskId := none, selectedGroupId := none }
    ∧ handleBack true
        { currentPage := Page.myGroups
          selectedTaskId := none, selectedGroupId := none }
      = { currentPage := Page.myTasks
          selectedTaskId := none, selectedGroupId := none } := by
  constructor
  · exact (handleBack_behavior _).1 rfl
  · exact (handleBack_behavior _).2.2.1 rfl rfl

/-- Claim C10 (confirmed). When no drill-down selection is active and the
host-bridge object is absent, handleBack leaves the navigation state
entirely unchanged; the no-selection navigation to the default tab happens
only when the bridge is present. -/
theorem handleBack_no_bridge_noop (s : NavState)
    (h1 : s.selectedTaskId = none) (h2 : s.selectedGroupId = none) :
    handleBack false s = s
    ∧ handleBack true s
        = { currentPage := Page.myTasks
            selectedTaskId := none, selectedGroupId := none } := by
  rcases s with ⟨page, t, g⟩
  cases h1
  cases h2
  exact ⟨rfl, rfl⟩

/-- Witness for claim C10 at a concrete no-selection state on the groups
tab. -/
theorem handleBack_no_bridge_noop_witness :
    handleBack false
        { currentPage := Page.myGroups
          selectedTaskId := none, selectedGroupId := none }
      = { currentPage := Page.myGroups
          selectedTaskId := none, selectedGroupId := none }
    ∧ handleBack true
        { currentPage := Page.myGroups
          selectedTaskId := none, selectedGroupId := none }
      = { currentPage := Page.myTasks
          selectedTaskId := none, selectedGroupId := none } :=
  handleBack_no_bridge_noop _ rfl rfl

/-- The named remote operations of the API service (createApiService,
src/main.tsx lines 144-197), used to account for which network calls a
scenario issues. -/
inductive GatewayCall
  | fetchUserData
  | fetchUserTasks
  | fetchTaskDetails (taskId : String)
  | fetchUserGroups
  | fetchGroupDetails (groupId : String)
  | createTask (data : List (String × String))
  | createGroup (fields : List (String × String))
  | fetchAllGroups
deriving DecidableEq

/-- Reading property k of the object built by Object.fromEntries from a list
of form entries: with duplicate keys the last entry wins; an absent key
reads as undefined (none). -/
def jsGet (entries : List (String × String)) (k : String) : Option String :=
  ((entries.filter (fun kv => kv.1 == k)).getLast?).map (fun kv => kv.2)

namespace PageAdminCreateTask

/-- The outcome of a creation-form submission, as far as the claims observe
it: either the synchronous inline validation error, or the gateway was
invoked. -/
inductive SubmitOutcome
  | validationError (msg : String)
  | gatewayInvoked
deriving DecidableEq

/-- The inline message set when a mandatory field is missing. -/
def requiredFieldsMsg : String := "Пожалуйста, заполните все обязательные поля."

/-- handleSubmit of the create-task screen (src/main.tsx lines 486-502), up
to the point where the network is (or is not) reached: the form entries are
collapsed by Object.fromEntries, the four mandatory fields are tested for
JavaScript truthiness, and a falsy one sets the inline message and returns
before api.createTask; otherwise createTask is invoked with the data. The
second component lists the gateway calls issued. -/
def handleSubmit (formEntries : List (String × String)) :
    SubmitOutcome × List GatewayCall :=
  let data := formEntries
  if !jsTruthyStr (jsGet data ("title")) || !jsTruthyStr (jsGet data ("project"))
      || !jsTruthyStr (jsGet data ("group")) || !jsTruthyStr (jsGet data ("assignee")) then
    (SubmitOutcome.validationError requiredFieldsMsg, [])
  else
    (SubmitOutcome.gatewayInvoked, [GatewayCall.createTask data])

end PageAdminCreateTask

/-- Claim C9 (confirmed). Whenever any of the mandatory fields title,
project, group, assignee of the create-task form is empty or missing, the
submission handler surfaces the required-fields validation message
synchronously and issues no gateway call at all. -/
theorem createTask_validation_blocks_network (form : List (String × String))
    (h : jsTruthyStr (jsGet form ("title")) = false
        ∨ jsTruthyStr (jsGet form ("project")) = false
        ∨ jsTruthyStr (jsGet form ("group")) = false
        ∨ jsTruthyStr (jsGet form ("assignee")) = false) :
    PageAdminCreateTask.handleSubmit form
      = (PageAdminCreateTask.SubmitOutcome.validationError
          PageAdminCreateTask.requiredFieldsMsg, []) := by
  unfold PageAdminCreateTask.handleSubmit
  rcases h with h1 | h1 | h1 | h1 <;> simp [h1]

/-- Witness for claim C9: a concrete form whose assignee field is the empty
string is rejected with the required-fields message and zero calls. -/
theorem createTask_validation_blocks_network_witness :
    PageAdminCreateTask.handleSubmit
        [("title", "T"), ("project", "P"), ("group", "G"), ("assignee", "")]
      = (PageAdminCreateTask.SubmitOutcome.validationError
          PageAdminCreateTask.requiredFieldsMsg, []) :=
  createTask_validation_blocks_network _ (by
    refine Or.inr (Or.inr (Or.inr ?_))
    decide)

/-- The tabs offered by the bottom navigation bar for a role (itemsToShow in
BottomNavBar, src/main.tsx lines 696-707). -/
def navItemsFor : UserRole → List Page
  | UserRole.user => [Page.myTasks, Page.myGroups]
  | UserRole.admin =>
      [Page.myTasks, Page.myGroups, Page.adminCreateTask,
       Page.adminCreateGroup, Page.adminAllGroups]

/-- The events the running application can process. Each constructor names
the concrete callback or effect of the source that produces it: the
navigation-bar buttons, the list-item clicks, the per-page header back
props, the creation completion callbacks, the bridge back button, the
resolution of the identity fetch let off by the identity effect, and the
fetch a mounted screen controller issues. -/
inductive Ev
  | navigate (p : Page)
  | selectTask (id : String)
  | selectGroup (id : String)
  | headerBackTask
  | headerBackGroup
  | taskCreated
  | groupCreated
  | tgBack
  | identityOk (u : User)
  | identityErr (msg : String)
  | issueFetch (c : GatewayCall)
deriving DecidableEq

/-- Whether a screen-controller fetch can currently be issued: each data
page issues its fetch on mount or on the user-triggered retry, so the fetch
exists exactly while renderPage shows that page; the details fetches also
require the matching nonempty selected id (the guard at the top of
loadTaskDetails and loadGroupDetails), and the creation calls additionally
require the client-side validation of their mandatory fields to pass.
fetchUserData is issued only by the identity effect, modelled by the
identity events. -/
def fetchEnabled (s : AppState) : GatewayCall → Bool
  | GatewayCall.fetchUserData => false
  | GatewayCall.fetchUserTasks => renderPage s == Rendered.pageMyTasks
  | GatewayCall.fetchTaskDetails id =>
      renderPage s == Rendered.pageTaskDetails
        && s.nav.selectedTaskId == some id && id != ""
  | GatewayCall.fetchUserGroups => renderPage s == Rendered.pageMyGroups
  | GatewayCall.fetchGroupDetails id =>
      renderPage s == Rendered.pageGroupDetails
        && s.nav.selectedGroupId == some id && id != ""
  | GatewayCall.createTask data =>
      renderPage s == Rendered.pageAdminCreateTask
        && (jsTruthyStr (jsGet data ("title")) && jsTruthyStr (jsGet data ("project"))
            && jsTruthyStr (jsGet data ("group")) && jsTruthyStr (jsGet data ("assignee")))
  | GatewayCall.createGroup fields =>
      renderPage s == Rendered.pageAdminCreateGroup
        && jsTruthyStr (jsGet fields ("name"))
  | GatewayCall.fetchAllGroups => renderPage s == Rendered.pageAdminAllGroups

/-- Whether an event can fire in a state. Every callback exists only on the
component that renders it: the navigation bar is rendered when an identity
is loaded and no fatal error is set, and offers the tabs of the role; the
select callbacks exist on the list pages only; the header back props and
completion callbacks exist on their page only; the bridge back button exists
only when the bridge object is present; the identity fetch resolves only if
the identity effect ran, which the source guards on a nonempty base
address. -/
def enabled (bridgePresent : Bool) (s : AppState) : Ev → Bool
  | Ev.navigate p =>
      s.user.isSome && s.error.isNone
        && (match s.user with
            | some u => (navItemsFor u.role).contains p
            | none => false)
  | Ev.selectTask _ => renderPage s == Rendered.pageMyTasks
  | Ev.selectGroup _ =>
      renderPage s == Rendered.pageMyGroups
        || renderPage s == Rendered.pageAdminAllGroups
  | Ev.headerBackTask => renderPage s == Rendered.pageTaskDetails
  | Ev.headerBackGroup => renderPage s == Rendered.pageGroupDetails
  | Ev.taskCreated => renderPage s == Rendered.pageAdminCreateTask
  | Ev.groupCreated => renderPage s == Rendered.pageAdminCreateGroup
  | Ev.tgBack => bridgePresent
  | Ev.identityOk _ => s.apiBaseUrl != ""
  | Ev.identityErr _ => s.apiBaseUrl != ""
  | Ev.issueFetch c => fetchEnabled s c

/-- One event step of the application, returning the next state and the
gateway calls the step issues. Navigation events apply the handlers above to
the navigation state; a successful identity resolution stores the user,
clears the error (setError null at the start of the identity effect) and
performs the role-based initial screen choice (src/main.tsx lines 783-800);
a failed one stores the authentication error; the identity events carry the
fetchUserData call of the effect that let them off; a screen-controller
fetch issues its call and changes no top-level state (its tri-state result
lives in the component). -/
def step (s : AppState) : Ev → AppState × List GatewayCall
  | Ev.navigate p => ({ s with nav := handleNavigate p s.nav }, [])
  | Ev.selectTask id => ({ s with nav := handleSelectTask id s.nav }, [])
  | Ev.selectGroup id => ({ s with nav := handleSelectGroup id s.nav }, [])
  | Ev.headerBackTask => ({ s with nav := handleNavigate Page.myTasks s.nav }, [])
  | Ev.headerBackGroup => ({ s with nav := handleNavigate Page.myGroups s.nav }, [])
  | Ev.taskCreated => ({ s with nav := handleNavigate Page.myTasks s.nav }, [])
  | Ev.groupCreated => ({ s with nav := handleNavigate Page.adminAllGroups s.nav }, [])
  | Ev.tgBack => ({ s with nav := handleBack true s.nav }, [])
  | Ev.identityOk u =>
      ({ s with
          user := some u
          error := none
          nav := { s.nav with currentPage :=
            if u.role == UserRole.admin then Page.adminCreateTask else Page.myTasks } },
       [GatewayCall.fetchUserData])
  | Ev.identityErr m =>
      ({ s with error := some ("Ошибка аутентификации: " ++ m) },
       [GatewayCall.fetchUserData])
  | Ev.issueFetch c => (s, [c])

/-- The guarded step used by runs: an event that is not enabled in the
current state simply cannot occur, so the state is unchanged and no call is
issued; an enabled one takes its step and appends its calls. -/
def gstep (bridgePresent : Bool) (sc : AppState × List GatewayCall) (e : Ev) :
    AppState × List GatewayCall :=
  if enabled bridgePresent sc.1 e then
    ((step sc.1 e).1, sc.2 ++ (step sc.1 e).2)
  else sc

/-- The configuration-error message set when the replyip launch parameter is
absent (src/main.tsx line 774). -/
def configErrorMsg : String :=
  "Ошибка конфигурации: параметр \x27replyip\x27 не найден в URL."

/-- The App initialization effect (src/main.tsx lines 767-779) as a function
of the replyip query parameter (none when absent): a truthy value becomes
the immutable base address, otherwise the state carries the fatal
configuration error. The navigation state starts on the tasks tab with no
selection and no identity. -/
def initApp (replyip : Option String) : AppState :=
  let base : AppState :=
    { nav := { currentPage := Page.myTasks
               selectedTaskId := none, selectedGroupId := none }
      user := none, apiBaseUrl := "", error := none }
  match replyip with
  | some ip => if ip != "" then { base with apiBaseUrl := ip }
               else { base with error := some configErrorMsg }
  | none => { base with error := some configErrorMsg }

/-- The application run: starting from the initialized state, process a list
of events through the guarded step, accumulating the gateway calls
issued. -/
def run (bridgePresent : Bool) (replyip : Option String) (es : List Ev) :
    AppState × List GatewayCall :=
  es.foldl (gstep bridgePresent) (initApp replyip, [])

/-- At most one drill-down selection is set. -/
def selExclusive (n : NavState) : Prop :=
  n.selectedTaskId = none ∨ n.selectedGroupId = none

/-- A state rendering one of the three list pages has no active drill-down
selection: the selection checks of renderPage come before the tab switch. -/
theorem renderPage_tab_selections_none (s : AppState)
    (h : renderPage s = Rendered.pageMyTasks ∨ renderPage s = Rendered.pageMyGroups
        ∨ renderPage s = Rendered.pageAdminAllGroups) :
    s.nav.selectedTaskId = none ∧ s.nav.selectedGroupId = none := by
  rcases s with ⟨⟨page, t, g⟩, u, base, err⟩
  cases err <;> cases u <;> cases t <;> cases g <;> simp_all [renderPage]

/-- A state with a fatal error renders the error screen. -/
theorem renderPage_eq_error (s : AppState) (m : String) (h : s.error = some m) :
    renderPage s = Rendered.errorScreen := by
  simp [renderPage, h]

/-- handleBack never creates a selection: it either goes through
handleNavigate or returns the state unchanged. -/
theorem handleBack_preserves_selExclusive (b : Bool) (n : NavState)
    (h : selExclusive n) : selExclusive (handleBack b n) := by
  unfold handleBack
  split
  · exact Or.inl rfl
  · split
    · exact Or.inl rfl
    · exact h

/-- One guarded step preserves selection exclusivity: every event that sets
a selection is gated on its list page being rendered, which forces the other
selection to be clear already. -/
theorem gstep_preserves_selExclusive (b : Bool) (sc : AppState × List GatewayCall)
    (e : Ev) (h : selExclusive sc.1.nav) : selExclusive ((gstep b sc e).1.nav) := by
  unfold gstep
  split
  case isFalse => exact h
  case isTrue he =>
    cases e with
    | navigate p => exact Or.inl rfl
    | selectTask id =>
        have hr : renderPage sc.1 = Rendered.pageMyTasks := by
          simpa [enabled] using he
        have hs := renderPage_tab_selections_none sc.1 (Or.inl hr)
        exact Or.inr hs.2
    | selectGroup id =>
        have hr : renderPage sc.1 = Rendered.pageMyGroups
            ∨ renderPage sc.1 = Rendered.pageAdminAllGroups := by
          simpa [enabled] using he
        have hs := renderPage_tab_selections_none sc.1 (Or.inr hr)
        exact Or.inl hs.1
    | headerBackTask => exact Or.inl rfl
    | headerBackGroup => exact Or.inl rfl
    | taskCreated => exact Or.inl rfl
    | groupCreated => exact Or.inl rfl
    | tgBack => exact handleBack_preserves_selExclusive true sc.1.nav h
    | identityOk u => exact h
    | identityErr m => exact h
    | issueFetch c => exact h

/-- Folding guarded steps preserves selection exclusivity. -/
theorem foldl_gstep_selExclusive (b : Bool) :
    ∀ (es : List Ev) (sc : AppState × List GatewayCall), selExclusive sc.1.nav →
      selExclusive ((es.foldl (gstep b) sc).1.nav)
  | [], _, h => h
  | e :: tl, sc, h =>
      foldl_gstep_selExclusive b tl _ (gstep_preserves_selExclusive b sc e h)

/-- The initialized state starts on the tasks tab with no selection. -/
theorem initApp_nav (replyip : Option String) :
    (initApp replyip).nav
      = { currentPage := Page.myTasks
          selectedTaskId := none, selectedGroupId := none } := by
  unfold initApp
  cases replyip with
  | none => rfl
  | some ip =>
      dsimp only
      split <;> rfl

/-- Claim C3 (confirmed). In every reachable state of the application - a
run from any launch context through any sequence of events the rendered
interface can produce - at most one of the two drill-down selections is set.
The select transitions preserve the invariant because each is only offered
by a rendered list page, and reaching a list page requires both selections
to be clear; every other transition clears both or leaves them untouched. -/
theorem selection_mutual_exclusion (b : Bool) (replyip : Option String)
    (es : List Ev) :
    (run b replyip es).1.nav.selectedTaskId = none
    ∨ (run b replyip es).1.nav.selectedGroupId = none := by
  refine foldl_gstep_selExclusive b es (initApp replyip, []) ?_
  rw [show (initApp replyip, ([] : List GatewayCall)).1 = initApp replyip from rfl]
  rw [initApp_nav]
  exact Or.inl rfl

/-- The absorbing fatal-configuration state: the configuration error is set,
no base address was resolved, no identity was loaded. -/
def configStuck (s : AppState) : Prop :=
  s.error = some configErrorMsg ∧ s.apiBaseUrl = "" ∧ s.user = none

/-- No screen-controller fetch is enabled while the error screen is
rendered: every fetch is gated on its data page being the rendered one. -/
theorem fetchEnabled_not_error (s : AppState) (c : GatewayCall)
    (hrp : renderPage s = Rendered.errorScreen) : fetchEnabled s c = false := by
  cases c <;> simp [fetchEnabled, hrp]

/-- One guarded step out of the fatal-configuration state stays in it and
issues no gateway call: with no identity and a set error neither the
navigation bar nor any data page is rendered, and with an empty base address
the identity effect never ran, so only state-local events (the bridge back
button) can fire, and they issue nothing. -/
theorem gstep_configStuck (b : Bool) (sc : AppState × List GatewayCall) (e : Ev)
    (h : configStuck sc.1) :
    configStuck ((gstep b sc e).1) ∧ (gstep b sc e).2 = sc.2 := by
  have hrp : renderPage sc.1 = Rendered.errorScreen :=
    renderPage_eq_error sc.1 configErrorMsg h.1
  unfold gstep
  split
  case isFalse => exact ⟨h, rfl⟩
  case isTrue he =>
    cases e with
    | navigate p => simp [enabled, h.2.2] at he
    | selectTask id => simp [enabled, hrp] at he
    | selectGroup id => simp [enabled, hrp] at he
    | headerBackTask => simp [enabled, hrp] at he
    | headerBackGroup => simp [enabled, hrp] at he
    | taskCreated => simp [enabled, hrp] at he
    | groupCreated => simp [enabled, hrp] at he
    | tgBack => exact ⟨h, by simp [step]⟩
    | identityOk u => simp [enabled, h.2.1] at he
    | identityErr m => simp [enabled, h.2.1] at he
    | issueFetch c =>
        rw [show enabled b sc.1 (Ev.issueFetch c) = fetchEnabled sc.1 c from rfl,
          fetchEnabled_not_error sc.1 c hrp] at he
        exact absurd he (by simp)

/-- Folding guarded steps out of the fatal-configuration state stays in it
and accumulates no gateway call. -/
theorem foldl_configStuck (b : Bool) :
    ∀ (es : List Ev) (sc : AppState × List GatewayCall), configStuck sc.1 →
      configStuck ((es.foldl (gstep b) sc).1)
      ∧ (es.foldl (gstep b) sc).2 = sc.2
  | [], _, h => ⟨h, rfl⟩
  | e :: tl, sc, h => by
      have hstep := gstep_configStuck b sc e h
      have htl := foldl_configStuck b tl (gstep b sc e) hstep.1
      exact ⟨htl.1, htl.2.trans hstep.2⟩

/-- Claim C4 (confirmed). A launch context without the replyip parameter
puts the session into the fatal configuration-error state with the
human-readable message, the error screen is rendered, and over every
possible continuation of the run not a single gateway call is issued - in
particular the identity fetch never happens, because the identity effect is
gated on a nonempty base address. -/
theorem missing_replyip_fatal_no_calls (b : Bool) (es : List Ev) :
    (run b none es).1.error = some configErrorMsg
    ∧ renderPage (run b none es).1 = Rendered.errorScreen
    ∧ (run b none es).2 = [] := by
  have h0 : configStuck (initApp none, ([] : List GatewayCall)).1 := ⟨rfl, rfl, rfl⟩
  have hf := foldl_configStuck b es (initApp none, []) h0
  exact ⟨hf.1.1, renderPage_eq_error _ configErrorMsg hf.1.1, hf.2⟩

/-- A concrete backend base address for scenario runs. -/
def baseUrl0 : String := "https://backend.example"

/-- A concrete admin identity. -/
def adminUser : User := { id := "u1", name := "Admin", role := UserRole.admin }

/-- A concrete non-admin identity. -/
def plainUser : User := { id := "u2", name := "Plain", role := UserRole.user }

/-- The only events that can make adminCreateTask the current screen are an
explicit navigation to it and a successful identity load; every other
guarded step keeps the current screen away from it. -/
theorem gstep_not_adminCreate (b : Bool) (sc : AppState × List GatewayCall)
    (e : Ev) (hid : ∀ u, e ≠ Ev.identityOk u)
    (hnav : e ≠ Ev.navigate Page.adminCreateTask)
    (h : sc.1.nav.currentPage ≠ Page.adminCreateTask) :
    ((gstep b sc e).1).nav.currentPage ≠ Page.adminCreateTask := by
  unfold gstep
  split
  case isFalse => exact h
  case isTrue =>
    cases e with
    | navigate p =>
        intro hc
        have hp : p = Page.adminCreateTask := hc
        rw [hp] at hnav
        exact hnav rfl
    | selectTask id => exact fun hc => Page.noConfusion hc
    | selectGroup id => exact fun hc => Page.noConfusion hc
    | headerBackTask => exact fun hc => Page.noConfusion hc
    | headerBackGroup => exact fun hc => Page.noConfusion hc
    | taskCreated => exact fun hc => Page.noConfusion hc
    | groupCreated => exact fun hc => Page.noConfusion hc
    | tgBack =>
        show (handleBack true sc.1.nav).currentPage ≠ Page.adminCreateTask
        unfold handleBack handleNavigate
        split
        · split <;> exact fun hc => Page.noConfusion hc
        · split
          · exact fun hc => Page.noConfusion hc
          · exact h
    | identityOk u => exact absurd rfl (hid u)
    | identityErr m => exact h
    | issueFetch c => exact h

/-- Folding guarded steps through events that are neither a successful
identity load nor an explicit navigation to adminCreateTask never lands on
adminCreateTask. -/
theorem foldl_not_adminCreate (b : Bool) :
    ∀ (es : List Ev),
      (∀ e ∈ es, (∀ u, e ≠ Ev.identityOk u) ∧ e ≠ Ev.navigate Page.adminCreateTask) →
      ∀ sc : AppState × List GatewayCall,
        sc.1.nav.currentPage ≠ Page.adminCreateTask →
        ((es.foldl (gstep b) sc).1).nav.currentPage ≠ Page.adminCreateTask
  | [], _, _, h => h
  | e :: tl, hes, sc, h => by
      have he := hes e (List.mem_cons_self _ _)
      exact foldl_not_adminCreate b tl
        (fun x hx => hes x (List.mem_cons_of_mem _ hx)) _
        (gstep_not_adminCreate b sc e he.1 he.2 h)

/-- Claim C8 (confirmed). When the identity loads with the admin role the
current screen is redirected to adminCreateTask; a subsequent explicit
navigation to the tasks tab by that admin is honored; a non-admin identity
load leaves the screen on the tasks tab; and after the honored navigation,
no continuation of the session that contains neither another identity load
(the identity effect fires only on the single base-address change, so it
cannot recur) nor an explicit navigation to adminCreateTask ever puts the
screen back on adminCreateTask: the redirect is a one-time event. -/
theorem admin_redirect_once_then_navigation_honored :
    ((run true (some baseUrl0) [Ev.identityOk adminUser]).1.nav.currentPage
        = Page.adminCreateTask)
    ∧ ((run true (some baseUrl0)
          [Ev.identityOk adminUser, Ev.navigate Page.myTasks]).1.nav.currentPage
        = Page.myTasks)
    ∧ ((run true (some baseUrl0) [Ev.identityOk plainUser]).1.nav.currentPage
        = Page.myTasks)
    ∧ ∀ es : List Ev,
        (∀ e ∈ es, (∀ u, e ≠ Ev.identityOk u) ∧ e ≠ Ev.navigate Page.adminCreateTask) →
        ((run true (some baseUrl0)
            ([Ev.identityOk adminUser, Ev.navigate Page.myTasks] ++ es)).1.nav.currentPage
          ≠ Page.adminCreateTask) := by
  refine ⟨by decide, by decide, by decide, ?_⟩
  intro es hes
  unfold run
  rw [List.foldl_append]
  refine foldl_not_adminCreate true es hes _ ?_
  show (run true (some baseUrl0)
      [Ev.identityOk adminUser, Ev.navigate Page.myTasks]).1.nav.currentPage
    ≠ Page.adminCreateTask
  decide

/-- Witness for claim C8: after the admin redirect and the honored
navigation to the tasks tab, a further navigation to the groups tab does not
land back on adminCreateTask. -/
theorem admin_redirect_once_witness :
    (run true (some baseUrl0)
        ([Ev.identityOk adminUser, Ev.navigate Page.myTasks]
          ++ [Ev.navigate Page.myGroups])).1.nav.currentPage
      ≠ Page.adminCreateTask := by
  refine admin_redirect_once_then_navigation_honored.2.2.2
    [Ev.navigate Page.myGroups] ?_
  intro e he
  rw [List.mem_singleton] at he
  subst he
  refine ⟨fun u hc => Ev.noConfusion hc, fun hc => ?_⟩
  injection hc with h2
  exact Page.noConfusion h2

/-- The task-details record (the TaskDetails interface of the source). -/
structure TaskDetails where
  id : String
  title : String
  project : String
  deadline : String
  assignee : String
  group : String
  description : String
  startTime : String
deriving DecidableEq

/-- The state of one PageTaskDetails controller instance: its tri-state
result (the task and error fields), the current taskId prop, and the fetches
it has issued that have not yet settled, each tagged with a fresh handle and
the taskId it was issued for. The handle stands for the promise identity;
nextFetchId supplies fresh handles. -/
structure TaskDetailsCtrl where
  task : Option TaskDetails
  error : Option String
  taskId : String
  nextFetchId : Nat
  inflight : List (Nat × String)
deriving DecidableEq

/-- loadTaskDetails (src/main.tsx lines 326-334): when the taskId prop is
truthy, clear the error, clear the shown task, and issue
api.fetchTaskDetails(taskId). The continuations installed on the returned
promise are then(setTask) and catch(e, setError e.message); note that they
compare nothing - no dependency key, no cancellation flag. -/
def loadTaskDetails (c : TaskDetailsCtrl) : TaskDetailsCtrl :=
  if c.taskId != "" then
    { c with
        error := none
        task := none
        inflight := c.inflight ++ [(c.nextFetchId, c.taskId)]
        nextFetchId := c.nextFetchId + 1 }
  else c

/-- Events on a PageTaskDetails controller: the taskId prop changes (the
effect with dependency list api, taskId re-runs loadTaskDetails), or an
issued fetch settles successfully or with an error. -/
inductive CtrlEv
  | setTaskId (id : String)
  | fetchResolved (fid : Nat) (v : TaskDetails)
  | fetchRejected (fid : Nat) (msg : String)
deriving DecidableEq

/-- One controller step. A settling event for a handle that is no longer in
flight is ignored (a promise settles at most once); a settling event for an
in-flight handle runs the installed continuation, which writes the result
unconditionally - this is exactly the source, where then(setTask) carries no
guard at all. -/
def ctrlStep (c : TaskDetailsCtrl) : CtrlEv → TaskDetailsCtrl
  | CtrlEv.setTaskId id => loadTaskDetails { c with taskId := id }
  | CtrlEv.fetchResolved fid v =>
      if c.inflight.any (fun p => p.1 == fid) then
        { c with
            task := some v
            inflight := c.inflight.filter (fun p => p.1 != fid) }
      else c
  | CtrlEv.fetchRejected fid msg =>
      if c.inflight.any (fun p => p.1 == fid) then
        { c with
            error := some msg
            inflight := c.inflight.filter (fun p => p.1 != fid) }
      else c

/-- Mounting PageTaskDetails with an initial taskId: the effect runs once on
mount. -/
def mountTaskDetails (t : String) : TaskDetailsCtrl :=
  loadTaskDetails
    { task := none, error := none, taskId := t, nextFetchId := 0, inflight := [] }

/-- A controller run from a mount through a list of events. -/
def runCtrl (t : String) (es : List CtrlEv) : TaskDetailsCtrl :=
  es.foldl ctrlStep (mountTaskDetails t)

/-- Concrete details for task A. -/
def detailsA : TaskDetails :=
  { id := "A", title := "Task A", project := "P", deadline := "2025-01-01"
    assignee := "u1", group := "g1", description := "first", startTime := "2024-12-01" }

/-- Concrete details for task B. -/
def detailsB : TaskDetails :=
  { id := "B", title := "Task B", project := "P", deadline := "2025-02-01"
    assignee := "u2", group := "g2", description := "second", startTime := "2024-12-02" }

/-- Counterexample to claim C2. Mount the details controller on task A
(fetch handle 0 issued for A), switch the dependency key to B before A
resolves (fetch handle 1 issued for B), let B resolve first with B's
details, then let A's stale response arrive: the displayed details end up
A's, not B's, even though the dependency key at resolution time is B. The
controller has no stale-response protection - the then(setTask) continuation
compares no dependency key - so the claim that the late completion is
discarded is false. -/
theorem staleFetch_overwrites_counterexample :
    (runCtrl ("A")
        [CtrlEv.setTaskId ("B"),
         CtrlEv.fetchResolved 1 detailsB,
         CtrlEv.fetchResolved 0 detailsA]).task = some detailsA
    ∧ (runCtrl ("A")
        [CtrlEv.setTaskId ("B"),
         CtrlEv.fetchResolved 1 detailsB,
         CtrlEv.fetchResolved 0 detailsA]).taskId = "B"
    ∧ detailsA ≠ detailsB := by
  refine ⟨rfl, rfl, ?_⟩
  decide

/-- Claim C2, amended (proved). A late completion of a superseded fetch is
not discarded: for every controller state and every still-in-flight fetch,
even one whose requested dependency key differs from the key active at
resolution time, the resolution writes its payload into the result state, so
the displayed result is that of the last fetch to resolve, not of the latest
issued one. -/
theorem lateResolve_always_writes (c : TaskDetailsCtrl) (fid : Nat)
    (req : String) (v : TaskDetails)
    (hmem : (fid, req) ∈ c.inflight) (_hstale : req ≠ c.taskId) :
    (ctrlStep c (CtrlEv.fetchResolved fid v)).task = some v := by
  have hany : c.inflight.any (fun p => p.1 == fid) = true := by
    refine List.any_eq_true.mpr ⟨(fid, req), hmem, ?_⟩
    simp
  simp [ctrlStep, hany]

/-- Witness for the amended claim C2 at a concrete state: handle 0 was
issued for task A, the dependency key has since moved to B, and A's
resolution still overwrites the result. -/
theorem lateResolve_always_writes_witness :
    (ctrlStep
        { task := none, error := none, taskId := "B"
          nextFetchId := 2, inflight := [(0, "A"), (1, "B")] }
        (CtrlEv.fetchResolved 0 detailsA)).task = some detailsA :=
  lateResolve_always_writes _ 0 ("A") detailsA (by decide) (by decide)

end TaskApp
